import Mathlib

/-!
# Verification of the tubely upload handlers

Shallow embedding of the Go upload handlers of the tubely repository:
`handlerUploadVideo` and its helpers (`getAspectRatio`,
`getAspectRatioString`, `processVideoForFastStart`, `dbVideoToSignedVideo`)
from `handler_upload_video.go`, `handlerUploadThumbnail` from
`handler_upload_thumbnail.go`, and the legacy video-upload variant
(the unnamed source file).

External collaborators (uuid parsing, JWT validation, the record store,
the object store, the two media tools, the OS temp-file API) are modelled
as oracles carried in an environment record: each oracle field holds the
result that the corresponding external call returns during the request.
The handler body is translated statement by statement from the Go source;
Go's `defer` is translated by applying the deferred clean-up action on
every exit path situated after the point where the defer is registered,
and a statement whose evaluation panics at runtime (the legacy variant's
`tempFile.Name()` on a nil handle) ends the run at that point.
Float64 arithmetic in the aspect-ratio classification is modelled bit
for bit: `F64` represents an IEEE-754 binary64 value by sign, 53-bit
significand and exponent, and every conversion, quotient and product of
the source is rounded to nearest with ties to even exactly as the
hardware rounds it, so classification at decimal-tie ratios (width 113,
height 200, whose quotient times 100 computes to the double just below
56.5) matches the program and not the exact rational arithmetic.
-/

set_option maxRecDepth 200000

namespace Tubely

/-- A video record of the record store (`database.Video`): the owning user,
the optional persisted video reference and the optional thumbnail
reference.  Other fields of the Go struct are never touched by the
handlers under study. -/
structure Video where
  userID : String
  videoURL : Option String
  thumbnailURL : Option String
deriving DecidableEq, Repr

/-- The static configuration the handlers read (`apiConfig`): object-store
bucket and region, the assets root directory and the HTTP port.  The
record store, the object-store client and the JWT secret are modelled
through the oracle environment instead. -/
structure ApiConfig where
  s3Bucket : String
  s3Region : String
  assetsRoot : String
  port : String
deriving DecidableEq, Repr

/-- One stream entry of the ffprobe JSON output (`respStruct.Streams`
element in `getAspectRatio`): pixel width and height. -/
structure FFProbeStream where
  width : Int
  height : Int
deriving DecidableEq, Repr

/-- The parsed ffprobe JSON output (`respStruct` in `getAspectRatio`). -/
structure FFProbeResult where
  streams : List FFProbeStream
deriving DecidableEq, Repr

/-- A successfully extracted multipart file part: `mediaType` is the
result of `mime.ParseMediaType` on the part's declared Content-Type
header (the empty string when that parse fails, which is what Go's
`mime.ParseMediaType` returns on error; both handlers ignore the parse
error and rely on the subsequent allow-list comparison). -/
structure FormPart where
  mediaType : String
deriving DecidableEq, Repr

/-! ### IEEE-754 binary64 model

`getAspectRatioString` compares float64 values for equality, and at
decimal-tie ratios its result depends on the rounding of the quotient
and product, so the classifier is modelled over an exact binary64
arithmetic rather than over `ℚ`.  All values computed by the modelled
code from int64 inputs lie well inside the normal range, so neither
subnormals nor overflow to infinity can arise and are not modelled; the
denominators of the modelled divisions are never zero (the source
guards `height == 0` before dividing). -/

/-- Floor of the base-2 logarithm of `n` (0 for `n ≤ 1`), written with
explicit fuel so that it is structurally recursive and the kernel can
evaluate it; the fuel bounds the number of halvings. -/
def natLog2F (fuel n : ℕ) : ℕ :=
  match fuel with
  | 0 => 0
  | fuel + 1 => if n ≤ 1 then 0 else natLog2F fuel (n / 2) + 1

/-- Fuel for `natLog2F`: ample for every number this model manipulates
(all are far below `2 ^ 4096`). -/
def f64Fuel : ℕ := 4096

/-- Floor of the base-2 logarithm of the positive rational `n / d`: the
bit lengths of `n` and `d` bracket it within one, and one comparison
decides. -/
def floorLog2Rat (n d : ℕ) : ℤ :=
  let e0 : ℤ := (natLog2F f64Fuel n : ℤ) - (natLog2F f64Fuel d : ℤ)
  if (if 0 ≤ e0 then d <<< e0.toNat ≤ n else d ≤ n <<< (-e0).toNat) then e0 else e0 - 1

/-- Round `a / b` (with `b > 0`) to the nearest natural number, ties to
even — the IEEE-754 default rounding used by every float64 operation
here. -/
def roundNEDiv (a b : ℕ) : ℕ :=
  let q := a / b
  let r := a % b
  if 2 * r < b then q
  else if b < 2 * r then q + 1
  else if q % 2 = 0 then q else q + 1

/-- A finite IEEE-754 binary64 value: `(-1)^neg * mant * 2^(expo - 52)`.
Canonical form: `mant = 0` (the zero, with `neg = false` and `expo = 0`;
the sign of a floating-point zero is not observable through the `==`
comparisons the source performs) or `2^52 ≤ mant < 2^53` (a normal
number), so structural equality coincides with value equality and with
Go's `==` on the values arising here (`NaN` and infinities cannot
arise). -/
structure F64 where
  neg : Bool
  mant : ℕ
  expo : ℤ
deriving DecidableEq, Repr

/-- The floating-point zero. -/
def F64.zero : F64 := ⟨false, 0, 0⟩

/-- Round the real number `(-1)^sgn * (n / d) * 2^e0` (with `d > 0`) to
the nearest binary64 value, ties to even: locate the leading bit of
`n / d`, scale to a 53-bit significand, round, and renormalize the
carry case `M = 2^53`. -/
def roundF64 (sgn : Bool) (n d : ℕ) (e0 : ℤ) : F64 :=
  if n = 0 then F64.zero
  else
    let K : ℤ := floorLog2Rat n d
    let M :=
      if 0 ≤ 52 - K then roundNEDiv (n <<< (52 - K).toNat) d
      else roundNEDiv n (d <<< (K - 52).toNat)
    if M = 2 ^ 53 then ⟨sgn, 2 ^ 52, K + e0 + 1⟩ else ⟨sgn, M, K + e0⟩

/-- Go's `float64(i)` conversion of an integer: correctly rounded (and
exact whenever `|i| ≤ 2^53`, which covers every realistic stream
dimension). -/
def F64.ofInt (i : ℤ) : F64 := roundF64 (decide (i < 0)) i.natAbs 1 0

/-- Correctly rounded float64 division, as the hardware computes `a / b`
(the modelled code never divides by zero). -/
def F64.div (a b : F64) : F64 :=
  roundF64 (a.neg != b.neg) a.mant b.mant (a.expo - b.expo)

/-- Correctly rounded float64 multiplication, as the hardware computes
`a * b` (Go does not fuse multiplications into FMAs). -/
def F64.mul (a b : F64) : F64 :=
  roundF64 (a.neg != b.neg) (a.mant * b.mant) 1 (a.expo + b.expo - 104)

/-- Go's `math.Round`: the nearest integer to the double's value, half
away from zero.  The float64 that `math.Round` returns represents this
integer exactly (doubles of magnitude at least `2^52` are already
integers and are returned unchanged; smaller results fit in 53 bits),
so the model can return the integer itself and re-convert with
`F64.ofInt` where the source uses the rounded double. -/
def F64.roundHalfAway (a : F64) : ℤ :=
  let mag : ℕ :=
    if 52 ≤ a.expo then a.mant <<< (a.expo - 52).toNat
    else
      let s := (52 - a.expo).toNat
      let ip := a.mant >>> s
      let fr := a.mant % (1 <<< s)
      if 1 <<< s ≤ 2 * fr then ip + 1 else ip
  if a.neg then -(mag : ℤ) else (mag : ℤ)

/-- Worker for `stringSplit`: walk the character list, cutting at each
separator occurrence; `acc` holds the current chunk reversed. -/
def stringSplitChars (sep : Char) : List Char → List Char → List String
  | [], acc => [String.mk acc.reverse]
  | c :: rest, acc =>
    if c = sep then String.mk acc.reverse :: stringSplitChars sep rest []
    else stringSplitChars sep rest (c :: acc)

/-- Go's `strings.Split` for a one-character separator (the source only
ever splits on `","` and `"/"`): cut the string at every occurrence of
`sep`, keeping empty chunks, so the result always has one more element
than there are separator occurrences and is never empty. -/
def stringSplit (s : String) (sep : Char) : List String :=
  stringSplitChars sep s.data []

/-- Rounding to the nearest integer, half away from zero, in exact
rational arithmetic.  This is the idealized reading of `math.Round`
used by the specification's "round to 2 decimal places" rule; the
program itself rounds the float64 value (`F64.roundHalfAway`), and the
two disagree at decimal-tie ratios such as 113/200. -/
def mathRound (q : ℚ) : ℤ :=
  if 0 ≤ q then ⌊q + 1/2⌋ else ⌈q - 1/2⌉

/-- `getAspectRatioString` from `handler_upload_video.go`, over exact
binary64 arithmetic: compare `math.Round(aspectRatio*100)/100` against
`math.Round(1600.0/9.0)/100.0` and `math.Round(900.0/16.0)/100.0` with
float64 `==`.  Every operation is the correctly rounded float64 one;
the constants `1600.0/9.0` and `900.0/16.0` are exact untyped-constant
quotients converted to float64, which equals the correctly rounded
division modelled here. -/
def getAspectRatioString (aspectRatio : F64) : String :=
  if F64.div (F64.ofInt ((F64.mul aspectRatio (F64.ofInt 100)).roundHalfAway)) (F64.ofInt 100)
      = F64.div (F64.ofInt ((F64.div (F64.ofInt 1600) (F64.ofInt 9)).roundHalfAway))
          (F64.ofInt 100) then
    "landscape"
  else if F64.div (F64.ofInt ((F64.mul aspectRatio (F64.ofInt 100)).roundHalfAway)) (F64.ofInt 100)
      = F64.div (F64.ofInt ((F64.div (F64.ofInt 900) (F64.ofInt 16)).roundHalfAway))
          (F64.ofInt 100) then
    "portrait"
  else
    "other"

/-- `getAspectRatio` from `handler_upload_video.go`.  Running ffprobe and
unmarshalling its JSON output are external steps, collapsed into the
`probeResult` oracle argument (`.error` covers both a non-zero tool exit
and a JSON unmarshal failure).  The function then rejects an output with
zero streams or zero height and otherwise classifies the first stream's
width/height ratio. -/
def getAspectRatio (probeResult : Except String FFProbeResult) : Except String String :=
  match probeResult with
  | .error e => .error e
  | .ok data =>
    match data.streams with
    | [] => .error "No valid streams in ffprobe output"
    | s :: _ =>
      if s.height = 0 then .error "No valid streams in ffprobe output"
      else .ok (getAspectRatioString (F64.div (F64.ofInt s.width) (F64.ofInt s.height)))

/-- `processVideoForFastStart` from `handler_upload_video.go`: the output
path is the input path plus the fixed `".processing"` suffix; the ffmpeg
invocation is external, its exit status is the `ffmpegOk` oracle; a
non-zero exit returns the error with no fallback. -/
def processVideoForFastStart (ffmpegOk : Bool) (filepath : String) : Except String String :=
  let outputFilepath := filepath ++ ".processing"
  if ffmpegOk then .ok outputFilepath else .error "ffmpeg exited non-zero"

/-- `dbVideoToSignedVideo` from `handler_upload_video.go`.  `presign`
is the oracle for `generatePresignedURL` (bucket and key arguments; the
fixed 10-minute expiry is a constant in the source).  A record with no
video reference, or with a reference that does not split on commas into
exactly two parts, is returned unchanged with no error. -/
def dbVideoToSignedVideo (presign : String → String → Except String String)
    (video : Video) : Except String Video :=
  match video.videoURL with
  | none => .ok video
  | some u =>
    let videoURLSlice := stringSplit u ','
    if videoURLSlice.length = 2 then
      let bucket := videoURLSlice.getD 0 ""
      let key := videoURLSlice.getD 1 ""
      match presign bucket key with
      | .error e => .error e
      | .ok signedVideoURL => .ok { video with videoURL := some signedVideoURL }
    else
      .ok video

/-- `const maxMemory = 1 << 30` in `handlerUploadVideo` (both variants):
the limit installed with `http.MaxBytesReader` before the body is read. -/
def videoMaxMemory : Nat := 1 <<< 30

/-- `const maxMemory = 10 << 20` in `handlerUploadThumbnail`: the
in-memory threshold passed to `r.ParseMultipartForm`. -/
def thumbnailMaxMemory : Nat := 10 <<< 20

/-- Oracle environment for one request to `handlerUploadVideo`
(`handler_upload_video.go` variant): the outcomes of the external calls
the handler makes, in source order.  `bodySize` is the length of the
request body in bytes, checked against the `http.MaxBytesReader` limit
while `r.FormFile` reads the body.  `probe` maps a file path to the
combined result of running ffprobe on it and unmarshalling its JSON
output.  `presign` is the result of `generatePresignedURL` on a bucket
and key.  `putObjectOk` is the result of the object-store `PutObject`
call (the source discards it). -/
structure VideoUploadEnv where
  bodySize : Nat
  videoIDValid : Bool
  bearerToken : Option String
  jwtUserID : Option String
  dbVideo : Option Video
  formFile : Option FormPart
  randOk : Bool
  tempName : Option String
  copyOk : Bool
  ffmpegOk : Bool
  openProcessedOk : Bool
  probe : String → Except String FFProbeResult
  putObjectOk : Bool
  presign : String → String → Except String String
  updateVideoOk : Bool

/-- Observable outcome of one `handlerUploadVideo` request: the HTTP
status written, whether `os.CreateTemp` ran and created a staged file,
the scratch-storage files still existing when the handler has returned
(after deferred clean-up ran), the argument of the object-store
`PutObject` call (bucket, key, content type) if it was made, and the
record passed to `db.UpdateVideo` if that call was made. -/
structure VideoOutcome where
  status : Nat
  tempCreated : Bool
  scratchFiles : List String
  putObject : Option (String × String × String)
  updateArg : Option Video
deriving DecidableEq, Repr

/-- The part of `handlerUploadVideo` situated after `os.CreateTemp`
succeeded (lines 90-142 of `handler_upload_video.go`).  At entry the
scratch storage holds the staged temp file `tmp`; the two `defer`
statements registered at that point are applied by the caller
(`handlerUploadVideo`) to whatever this body returns.  The `PutObject`
call's result (`env.putObjectOk`) is discarded by the source, so it is
not consulted here. -/
def uploadVideoAfterStage (cfg : ApiConfig) (env : VideoUploadEnv)
    (video : Video) (mediaType : String) (tmp : String) : VideoOutcome :=
  if !env.copyOk then
    { status := 400, tempCreated := true, scratchFiles := [tmp],
      putObject := none, updateArg := none }
  else
    match processVideoForFastStart env.ffmpegOk tmp with
    | .error _ =>
      { status := 400, tempCreated := true, scratchFiles := [tmp],
        putObject := none, updateArg := none }
    | .ok tempFileProcessed =>
      let processedFilenameSlice := stringSplit tempFileProcessed '/'
      let processedFilename := processedFilenameSlice.getLastD ""
      if !env.openProcessedOk then
        { status := 404, tempCreated := true, scratchFiles := [tmp, tempFileProcessed],
          putObject := none, updateArg := none }
      else
        match getAspectRatio (env.probe tmp) with
        | .error _ =>
          { status := 400, tempCreated := true, scratchFiles := [tmp, tempFileProcessed],
            putObject := none, updateArg := none }
        | .ok aspectRatio =>
          let fileKey := aspectRatio ++ "/" ++ processedFilename
          let put := some (cfg.s3Bucket, fileKey, mediaType)
          let url := cfg.s3Bucket ++ "," ++ fileKey
          let video1 : Video := { video with videoURL := some url }
          match dbVideoToSignedVideo env.presign video1 with
          | .error _ =>
            { status := 400, tempCreated := true, scratchFiles := [tmp, tempFileProcessed],
              putObject := put, updateArg := none }
          | .ok signedVideo =>
            if !env.updateVideoOk then
              { status := 400, tempCreated := true, scratchFiles := [tmp, tempFileProcessed],
                putObject := put, updateArg := some signedVideo }
            else
              { status := 200, tempCreated := true, scratchFiles := [tmp, tempFileProcessed],
                putObject := put, updateArg := some signedVideo }

/-- `handlerUploadVideo` from `handler_upload_video.go`, translated
guard by guard.  The early-return branches carry the status codes of
the source's `respondWithError` calls.  The exceeded `MaxBytesReader`
limit surfaces as the `r.FormFile` error (status 400) because
`r.FormFile` is what reads the body.  After `os.CreateTemp` succeeds
the source registers `defer os.Remove(tempFile.Name())` and
`defer tempFile.Close()`; accordingly every exit of the remaining body
has the staged file's removal applied to its scratch-file set. -/
def handlerUploadVideo (cfg : ApiConfig) (env : VideoUploadEnv) : VideoOutcome :=
  if !env.videoIDValid then
    { status := 400, tempCreated := false, scratchFiles := [], putObject := none, updateArg := none }
  else
    match env.bearerToken with
    | none => { status := 401, tempCreated := false, scratchFiles := [], putObject := none, updateArg := none }
    | some _token =>
      match env.jwtUserID with
      | none => { status := 401, tempCreated := false, scratchFiles := [], putObject := none, updateArg := none }
      | some userID =>
        match env.dbVideo with
        | none => { status := 404, tempCreated := false, scratchFiles := [], putObject := none, updateArg := none }
        | some video =>
          if video.userID ≠ userID then
            { status := 401, tempCreated := false, scratchFiles := [], putObject := none, updateArg := none }
          else if env.bodySize > videoMaxMemory then
            { status := 400, tempCreated := false, scratchFiles := [], putObject := none, updateArg := none }
          else
            match env.formFile with
            | none =>
              { status := 400, tempCreated := false, scratchFiles := [], putObject := none, updateArg := none }
            | some formPart =>
              let mediaType := formPart.mediaType
              if mediaType ≠ "video/mp4" then
                { status := 415, tempCreated := false, scratchFiles := [], putObject := none, updateArg := none }
              else if !env.randOk then
                { status := 500, tempCreated := false, scratchFiles := [], putObject := none, updateArg := none }
              else
                match env.tempName with
                | none =>
                  { status := 400, tempCreated := false, scratchFiles := [], putObject := none, updateArg := none }
                | some tmp =>
                  let body := uploadVideoAfterStage cfg env video mediaType tmp
                  { body with scratchFiles := body.scratchFiles.filter (fun f => f ≠ tmp) }

/-- Oracle environment for one request to `handlerUploadThumbnail`.
`videoIDString` is the raw path value (used verbatim in the saved file
name and the thumbnail URL); `videoIDValid` is whether `uuid.Parse`
accepts it.  `createOk` is the result of `os.Create` on the asset path,
`copyOk` of `io.Copy`.  `bodySize` is the request body length: the
thumbnail handler installs no `http.MaxBytesReader`, and
`r.ParseMultipartForm(maxMemory)` treats its argument only as the
in-memory threshold (larger file parts spill to disk), so no field of
the handler's behaviour depends on `bodySize`. -/
structure ThumbnailEnv where
  bodySize : Nat
  videoIDString : String
  videoIDValid : Bool
  bearerToken : Option String
  jwtUserID : Option String
  formFile : Option FormPart
  dbVideo : Option Video
  createOk : Bool
  copyOk : Bool
  updateVideoOk : Bool

/-- Observable outcome of one `handlerUploadThumbnail` request: HTTP
status, whether `os.Create` was invoked on the asset path, files
created under the assets root (this handler registers no
deferred removal for them), and the record passed to `db.UpdateVideo`
if that call was made. -/
structure ThumbnailOutcome where
  status : Nat
  createAttempted : Bool
  assetFiles : List String
  updateArg : Option Video
deriving DecidableEq, Repr

/-- `handlerUploadThumbnail` from `handler_upload_thumbnail.go`,
translated guard by guard.  `r.ParseMultipartForm(maxMemory)`'s error
is ignored by the source and the call bounds only parsing memory, not
the body size, so the translation has no body-size guard.  The media
allow-list check (`image/jpeg` or `image/png`) sits after the owner
check and before `os.Create`, exactly as in the source. -/
def handlerUploadThumbnail (cfg : ApiConfig) (env : ThumbnailEnv) : ThumbnailOutcome :=
  if !env.videoIDValid then
    { status := 400, createAttempted := false, assetFiles := [], updateArg := none }
  else
    match env.bearerToken with
    | none => { status := 401, createAttempted := false, assetFiles := [], updateArg := none }
    | some _token =>
      match env.jwtUserID with
      | none => { status := 401, createAttempted := false, assetFiles := [], updateArg := none }
      | some userID =>
        match env.formFile with
        | none => { status := 400, createAttempted := false, assetFiles := [], updateArg := none }
        | some formPart =>
          match env.dbVideo with
          | none => { status := 404, createAttempted := false, assetFiles := [], updateArg := none }
          | some video =>
            if video.userID ≠ userID then
              { status := 401, createAttempted := false, assetFiles := [], updateArg := none }
            else
              let mediaType := formPart.mediaType
              let extParts := stringSplit mediaType '/'
              let extSuffix := extParts.getD 1 ""
              if mediaType ≠ "image/jpeg" ∧ mediaType ≠ "image/png" then
                { status := 415, createAttempted := false, assetFiles := [], updateArg := none }
              else
                let savePath := cfg.assetsRoot ++ "/" ++ env.videoIDString ++ "." ++ extSuffix
                if !env.createOk then
                  { status := 500, createAttempted := true, assetFiles := [], updateArg := none }
                else if !env.copyOk then
                  { status := 500, createAttempted := true, assetFiles := [savePath], updateArg := none }
                else
                  let url := "http://localhost:" ++ cfg.port ++ "/assets/"
                      ++ env.videoIDString ++ "." ++ extSuffix
                  let video1 : Video := { video with thumbnailURL := some url }
                  if !env.updateVideoOk then
                    { status := 400, createAttempted := true, assetFiles := [savePath],
                      updateArg := some video1 }
                  else
                    { status := 200, createAttempted := true, assetFiles := [savePath],
                      updateArg := some video1 }

/-- Oracle environment for the legacy `handlerUploadVideo` variant (the
unnamed source file).  `randName` is the base64url encoding of the 32
random bytes drawn for the object key. -/
structure LegacyEnv where
  bodySize : Nat
  videoIDValid : Bool
  bearerToken : Option String
  jwtUserID : Option String
  dbVideo : Option Video
  formFile : Option FormPart
  randOk : Bool
  randName : String
  tempName : Option String
  copyOk : Bool
  putObjectOk : Bool
  updateVideoOk : Bool

/-- Observable outcome of one legacy `handlerUploadVideo` request.
`statusWrites` lists every status written by a `respondWith...` call, in
order (this variant writes no success response).  `panicked` is set
when the run dies by runtime panic instead of returning normally.
`ioCopyHandle` is `some h` when `io.Copy` ran with the temp file named
`h` as destination; `deferredCleanupHandle` likewise records the file
for which the deferred `os.Remove`/`Close` pair was registered.
`scratchFiles` lists the scratch files still existing when the run
ends. -/
structure LegacyOutcome where
  statusWrites : List Nat
  panicked : Bool
  ioCopyHandle : Option String
  deferredCleanupHandle : Option String
  putObject : Option (String × String × String)
  updateArg : Option Video
  scratchFiles : List String
deriving DecidableEq, Repr

/-- The tail of the legacy handler, from the two `defer` statements
onward (lines 81-100 of the unnamed source file), reached only when
`os.CreateTemp` returned the valid temp file `tmp` (on a failed
`os.CreateTemp` the run panics before this point; see
`legacyHandlerUploadVideo`).  The `io.Copy` error is discarded by the
source, the `PutObject` result likewise; `db.UpdateVideo` runs with the
public object URL and only its failure writes a status.  The deferred
`os.Remove(tempFile.Name())` removes the staged file before the handler
returns. -/
def legacyAfterTemp (cfg : ApiConfig) (env : LegacyEnv) (video : Video)
    (mediaType : String) (filename : String) (tmp : String) : LegacyOutcome :=
  let afterDeferredRemove := [tmp].filter (fun f => f ≠ tmp)
  let url := "https://" ++ cfg.s3Bucket ++ ".s3." ++ cfg.s3Region
      ++ ".amazonaws.com/" ++ filename
  let video1 : Video := { video with videoURL := some url }
  let writes := if !env.updateVideoOk then [400] else ([] : List Nat)
  { statusWrites := writes,
    panicked := false,
    ioCopyHandle := some tmp,
    deferredCleanupHandle := some tmp,
    putObject := some (cfg.s3Bucket, filename, mediaType),
    updateArg := some video1,
    scratchFiles := afterDeferredRemove }

/-- The legacy `handlerUploadVideo` (unnamed source file), translated
guard by guard.  It differs from the current variant in that: the media
allow-list check comes right after `mime.ParseMediaType`; the object key
is the bare random filename (no classification); the persisted
reference is the public `https` bucket URL; and the `os.CreateTemp`
error branch calls `respondWithError` without a `return`, so execution
falls through — into `defer os.Remove(tempFile.Name())`, whose argument
is evaluated eagerly on the nil handle that the failed `os.CreateTemp`
left behind, and `(*os.File).Name()` on nil dereferences a nil pointer:
the run dies by runtime panic at that statement, before `io.Copy`,
`PutObject` or `UpdateVideo`. -/
def legacyHandlerUploadVideo (cfg : ApiConfig) (env : LegacyEnv) : LegacyOutcome :=
  if !env.videoIDValid then
    { statusWrites := [400], panicked := false, ioCopyHandle := none,
      deferredCleanupHandle := none, putObject := none, updateArg := none,
      scratchFiles := [] }
  else
    match env.bearerToken with
    | none =>
      { statusWrites := [401], panicked := false, ioCopyHandle := none,
        deferredCleanupHandle := none, putObject := none, updateArg := none,
        scratchFiles := [] }
    | some _token =>
      match env.jwtUserID with
      | none =>
        { statusWrites := [401], panicked := false, ioCopyHandle := none,
          deferredCleanupHandle := none, putObject := none, updateArg := none,
          scratchFiles := [] }
      | some userID =>
        match env.dbVideo with
        | none =>
          { statusWrites := [404], panicked := false, ioCopyHandle := none,
            deferredCleanupHandle := none, putObject := none, updateArg := none,
            scratchFiles := [] }
        | some video =>
          if video.userID ≠ userID then
            { statusWrites := [401], panicked := false, ioCopyHandle := none,
              deferredCleanupHandle := none, putObject := none, updateArg := none,
              scratchFiles := [] }
          else if env.bodySize > videoMaxMemory then
            { statusWrites := [400], panicked := false, ioCopyHandle := none,
              deferredCleanupHandle := none, putObject := none, updateArg := none,
              scratchFiles := [] }
          else
            match env.formFile with
            | none =>
              { statusWrites := [400], panicked := false, ioCopyHandle := none,
                deferredCleanupHandle := none, putObject := none, updateArg := none,
                scratchFiles := [] }
            | some formPart =>
              let mediaType := formPart.mediaType
              if mediaType ≠ "video/mp4" then
                { statusWrites := [415], panicked := false, ioCopyHandle := none,
                  deferredCleanupHandle := none, putObject := none, updateArg := none,
                  scratchFiles := [] }
              else if !env.randOk then
                { statusWrites := [500], panicked := false, ioCopyHandle := none,
                  deferredCleanupHandle := none, putObject := none, updateArg := none,
                  scratchFiles := [] }
              else
                let extParts := stringSplit mediaType '/'
                let filename := env.randName ++ "." ++ extParts.getD 1 ""
                match env.tempName with
                | some tmp =>
                  legacyAfterTemp cfg env video mediaType filename tmp
                | none =>
                  { statusWrites := [400], panicked := true, ioCopyHandle := none,
                    deferredCleanupHandle := none, putObject := none, updateArg := none,
                    scratchFiles := [] }

/-- Decidable equality for `Except`, so concrete classifier results can
be settled by `decide`. -/
instance {e a : Type} [DecidableEq e] [DecidableEq a] : DecidableEq (Except e a) := fun x y =>
  match x, y with
  | .error u, .error v =>
    if h : u = v then isTrue (by rw [h]) else isFalse (fun c => h (Except.error.inj c))
  | .ok u, .ok v =>
    if h : u = v then isTrue (by rw [h]) else isFalse (fun c => h (Except.ok.inj c))
  | .error _, .ok _ => isFalse (fun c => Except.noConfusion c)
  | .ok _, .error _ => isFalse (fun c => Except.noConfusion c)

/-! ## Concrete fixtures used by witnesses and counterexamples -/

/-- A concrete configuration. -/
def cfg0 : ApiConfig :=
  { s3Bucket := "tubely-bucket", s3Region := "us-east-1",
    assetsRoot := "./assets", port := "8091" }

/-- A fully successful video-upload environment: a valid request by the
record's owner, a 16:9 (1920 by 1080) probe result, and every external
call succeeding. -/
def env0 : VideoUploadEnv :=
  { bodySize := 1000
    videoIDValid := true
    bearerToken := some "tok"
    jwtUserID := some "user1"
    dbVideo := some ⟨"user1", none, none⟩
    formFile := some ⟨"video/mp4"⟩
    randOk := true
    tempName := some "/tmp/abc123.mp4"
    copyOk := true
    ffmpegOk := true
    openProcessedOk := true
    probe := fun _ => .ok ⟨[⟨1920, 1080⟩]⟩
    putObjectOk := true
    presign := fun _ _ => .ok "https://signed.example/get"
    updateVideoOk := true }

/-- A valid thumbnail-upload environment whose request body is one byte
larger than the handler's `maxMemory` constant, with every external
call succeeding. -/
def tenv0 : ThumbnailEnv :=
  { bodySize := thumbnailMaxMemory + 1
    videoIDString := "11111111-1111-1111-1111-111111111111"
    videoIDValid := true
    bearerToken := some "tok"
    jwtUserID := some "owner"
    formFile := some ⟨"image/png"⟩
    dbVideo := some ⟨"owner", none, none⟩
    createOk := true
    copyOk := true
    updateVideoOk := true }

/-- A legacy video-upload environment in which every step up to staging
succeeds and `os.CreateTemp` fails. -/
def lenv0 : LegacyEnv :=
  { bodySize := 1000
    videoIDValid := true
    bearerToken := some "tok"
    jwtUserID := some "user1"
    dbVideo := some ⟨"user1", none, none⟩
    formFile := some ⟨"video/mp4"⟩
    randOk := true
    randName := "r4nd0mN4m3"
    tempName := none
    copyOk := true
    putObjectOk := true
    updateVideoOk := true }

/-! ## Helper lemmas -/

/-- The probe fixture of `env0` classifies as landscape: the float64
computation of 1920/1080 times 100 rounds to 178, matching the rounded
`1600.0/9.0` constant. -/
lemma probe_env0_landscape :
    getAspectRatio (Except.ok ⟨[⟨1920, 1080⟩]⟩) = Except.ok "landscape" := by
  decide

/-- Appending the fixed `".processing"` suffix always changes a
string. -/
lemma append_processing_ne (t : String) : t ++ ".processing" ≠ t := by
  intro h
  have hlen := congrArg String.length h
  have hp : (".processing").length = 11 := rfl
  rw [String.length_append, hp] at hlen
  omega

/-- A video-upload outcome that rejected the request cleanly: a 4xx
status, no staged temp file ever created, nothing left on scratch
storage, no object-store write and no record-store update. -/
abbrev VideoOutcome.cleanReject (o : VideoOutcome) : Prop :=
  400 ≤ o.status ∧ o.status < 500 ∧ o.tempCreated = false ∧
  o.scratchFiles = [] ∧ o.putObject = none ∧ o.updateArg = none

/-- A thumbnail-upload outcome that rejected the request cleanly: a 4xx
status, `os.Create` never invoked, no asset file and no record-store
update. -/
abbrev ThumbnailOutcome.cleanReject (o : ThumbnailOutcome) : Prop :=
  400 ≤ o.status ∧ o.status < 500 ∧ o.createAttempted = false ∧
  o.assetFiles = [] ∧ o.updateArg = none

/-- A legacy video-upload outcome that rejected the request cleanly:
only 4xx statuses written, no `io.Copy`, no deferred clean-up
registered, no object-store write, no record-store update, and nothing
left on scratch storage. -/
abbrev LegacyOutcome.cleanReject (o : LegacyOutcome) : Prop :=
  o.ioCopyHandle = none ∧ o.deferredCleanupHandle = none ∧
  o.putObject = none ∧ o.updateArg = none ∧ o.scratchFiles = [] ∧
  ∀ s ∈ o.statusWrites, 400 ≤ s ∧ s < 500

/-! ## Claims -/

/-- C1: the claim states that for every successful video upload the
reference persisted via `UpdateVideo` is the literal composite
`bucket,key` string.  On the code this fails: the handler applies
`dbVideoToSignedVideo` to the record *before* calling `UpdateVideo`
(lines 129-136 of `handler_upload_video.go`), so on a fully successful
upload the persisted record carries the presigned URL.  This theorem
evaluates the handler at the concrete successful input `env0`: the
response is 200, the object was published under the composed key, yet
the record handed to `UpdateVideo` holds the signed URL and not the
`bucket,key` composite. -/
theorem claim1_persisted_reference_is_presigned :
    (handlerUploadVideo cfg0 env0).status = 200 ∧
    (handlerUploadVideo cfg0 env0).putObject
      = some ("tubely-bucket", "landscape/abc123.mp4.processing", "video/mp4") ∧
    (handlerUploadVideo cfg0 env0).updateArg
      = some ⟨"user1", some "https://signed.example/get", none⟩ ∧
    (handlerUploadVideo cfg0 env0).updateArg
      ≠ some ⟨"user1", some "tubely-bucket,landscape/abc123.mp4.processing", none⟩ := by
  decide

/-- C3: the object-store publish step is fire-and-forget.  Neither
video-upload variant reads the result of `PutObject`, so the entire
observable outcome — status, clean-up, published object and record
update — is identical whatever that call returns, and a publish failure
is never reported to the caller. -/
theorem claim3_put_object_fire_and_forget (cfg : ApiConfig) (venv : VideoUploadEnv)
    (lenv : LegacyEnv) (b1 b2 : Bool) :
    handlerUploadVideo cfg { venv with putObjectOk := b1 }
      = handlerUploadVideo cfg { venv with putObjectOk := b2 } ∧
    legacyHandlerUploadVideo cfg { lenv with putObjectOk := b1 }
      = legacyHandlerUploadVideo cfg { lenv with putObjectOk := b2 } :=
  ⟨rfl, rfl⟩

/-- C4: `dbVideoToSignedVideo` returns the record unchanged and reports
no error whenever the stored video reference is absent, or present but
not splitting on commas into exactly two parts (a bare URL with no
comma, a string with more than one comma, and so on). -/
theorem claim4_signed_video_quiet_fallback
    (presign : String → String → Except String String) (video : Video) :
    (video.videoURL = none → dbVideoToSignedVideo presign video = Except.ok video) ∧
    (∀ u : String, video.videoURL = some u → (stringSplit u ',').length ≠ 2 →
      dbVideoToSignedVideo presign video = Except.ok video) := by
  constructor
  · intro h
    simp [dbVideoToSignedVideo, h]
  · intro u hu hlen
    simp [dbVideoToSignedVideo, hu, hlen]

/-- Witness for C4: a record holding a bare URL (no comma, one split
part) passes through unchanged with no error. -/
theorem claim4_signed_video_quiet_fallback_witness :
    dbVideoToSignedVideo (fun _ _ => Except.ok "https://signed.example/get")
        ⟨"owner", some "https://bare.example/video.mp4", none⟩
      = Except.ok ⟨"owner", some "https://bare.example/video.mp4", none⟩ :=
  (claim4_signed_video_quiet_fallback _ _).2 "https://bare.example/video.mp4" rfl (by decide)

/-- Counterexample to C2: the claimed exact rounding rule fails on the
code at width 113, height 200.  The exact two-decimal rounding of the
ratio 113/200 is 0.57 (`mathRound (113/200 * 100) = 57`), which matches
neither 16:9 (178) nor 9:16 (56), so the claim demands `"other"`; but
the program computes `float64(113)/float64(200)*100` as the binary64
value just below 56.5, `math.Round` gives 56, and the program returns
`"portrait"`. -/
theorem claim2_counterexample_decimal_tie_ratio :
    mathRound ((113 : ℚ) / 200 * 100) = 57 ∧
    mathRound ((16 : ℚ) / 9 * 100) = 178 ∧
    mathRound ((9 : ℚ) / 16 * 100) = 56 ∧
    getAspectRatio (Except.ok ⟨[⟨113, 200⟩]⟩) = Except.ok "portrait" ∧
    getAspectRatio (Except.ok ⟨[⟨113, 200⟩]⟩) ≠ Except.ok "other" := by
  refine ⟨by norm_num [mathRound], by norm_num [mathRound], by norm_num [mathRound],
    by decide, by decide⟩

/-- C2 as amended: aspect classification is deterministic and total,
with the two-decimal rounding performed in float64 arithmetic exactly
as the program performs it.  For every probe result with at least one
stream and nonzero first-stream height: when the float64 computation of
width/height times 100 rounds (half away from zero) to 178 — the
rounded value of `1600.0/9.0`, i.e. 1.78 after division — the label is
`"landscape"`; when it rounds to 56 — the rounded value of
`900.0/16.0`, i.e. 0.56 — the label is `"portrait"`; and when the
rounded-and-divided value equals neither constant the label is
`"other"`.  At decimal-tie ratios the float64 representation decides
the rounding (113:200 classifies as `"portrait"`, not `"other"`).  The
classifier always returns one of the three labels, and a probe result
with zero streams or zero height yields an error, never a silent
default label. -/
theorem claim2_aspect_classification_float64 (s : FFProbeStream)
    (rest : List FFProbeStream) (hh : s.height ≠ 0) :
    ((F64.mul (F64.div (F64.ofInt s.width) (F64.ofInt s.height))
        (F64.ofInt 100)).roundHalfAway = 178 →
      getAspectRatio (Except.ok ⟨s :: rest⟩) = Except.ok "landscape") ∧
    ((F64.mul (F64.div (F64.ofInt s.width) (F64.ofInt s.height))
        (F64.ofInt 100)).roundHalfAway = 56 →
      getAspectRatio (Except.ok ⟨s :: rest⟩) = Except.ok "portrait") ∧
    (F64.div (F64.ofInt ((F64.mul (F64.div (F64.ofInt s.width) (F64.ofInt s.height))
          (F64.ofInt 100)).roundHalfAway)) (F64.ofInt 100)
        ≠ F64.div (F64.ofInt ((F64.div (F64.ofInt 1600) (F64.ofInt 9)).roundHalfAway))
            (F64.ofInt 100) →
      F64.div (F64.ofInt ((F64.mul (F64.div (F64.ofInt s.width) (F64.ofInt s.height))
          (F64.ofInt 100)).roundHalfAway)) (F64.ofInt 100)
        ≠ F64.div (F64.ofInt ((F64.div (F64.ofInt 900) (F64.ofInt 16)).roundHalfAway))
            (F64.ofInt 100) →
      getAspectRatio (Except.ok ⟨s :: rest⟩) = Except.ok "other") ∧
    ((F64.div (F64.ofInt 1600) (F64.ofInt 9)).roundHalfAway = 178 ∧
      (F64.div (F64.ofInt 900) (F64.ofInt 16)).roundHalfAway = 56) ∧
    (∀ q : F64, getAspectRatioString q = "landscape" ∨ getAspectRatioString q = "portrait"
      ∨ getAspectRatioString q = "other") ∧
    (∀ (s2 : FFProbeStream) (rest2 : List FFProbeStream), s2.height = 0 →
      getAspectRatio (Except.ok ⟨s2 :: rest2⟩)
        = Except.error "No valid streams in ffprobe output") ∧
    getAspectRatio (Except.ok (⟨[]⟩ : FFProbeResult))
      = Except.error "No valid streams in ffprobe output" := by
  have hland : (F64.div (F64.ofInt 1600) (F64.ofInt 9)).roundHalfAway = 178 := by decide
  have hport : (F64.div (F64.ofInt 900) (F64.ofInt 16)).roundHalfAway = 56 := by decide
  have hne : F64.div (F64.ofInt 56) (F64.ofInt 100)
      ≠ F64.div (F64.ofInt 178) (F64.ofInt 100) := by decide
  refine ⟨?_, ?_, ?_, ⟨hland, hport⟩, ?_, ?_, ?_⟩
  · intro h
    simp only [getAspectRatio]
    rw [if_neg hh]
    unfold getAspectRatioString
    rw [hland, h, if_pos rfl]
  · intro h
    simp only [getAspectRatio]
    rw [if_neg hh]
    unfold getAspectRatioString
    rw [hland, hport, h, if_neg hne, if_pos rfl]
  · intro h1 h2
    simp only [getAspectRatio]
    rw [if_neg hh]
    unfold getAspectRatioString
    rw [if_neg h1, if_neg h2]
  · intro q
    unfold getAspectRatioString
    split
    · left
      rfl
    · split
      · right
        left
        rfl
      · right
        right
        rfl
  · intro s2 rest2 h0
    simp [getAspectRatio, h0]
  · rfl

/-- Witness for C2 as amended: 1920 by 1080 rounds to 178 and is
landscape, 1080 by 1920 rounds to 56 and is portrait, 4 by 3 matches
neither constant and is other, the decimal-tie 113 by 200 rounds to 56
in float64 and is portrait, and a zero-height stream is a hard
error. -/
theorem claim2_aspect_classification_float64_witness :
    getAspectRatio (Except.ok ⟨[⟨1920, 1080⟩]⟩) = Except.ok "landscape" ∧
    getAspectRatio (Except.ok ⟨[⟨1080, 1920⟩]⟩) = Except.ok "portrait" ∧
    getAspectRatio (Except.ok ⟨[⟨4, 3⟩]⟩) = Except.ok "other" ∧
    getAspectRatio (Except.ok ⟨[⟨113, 200⟩]⟩) = Except.ok "portrait" ∧
    getAspectRatio (Except.ok ⟨[⟨640, 0⟩]⟩)
      = Except.error "No valid streams in ffprobe output" := by
  refine ⟨?_, ?_, ?_, ?_, ?_⟩
  · exact (claim2_aspect_classification_float64 ⟨1920, 1080⟩ [] (by decide)).1 (by decide)
  · exact (claim2_aspect_classification_float64 ⟨1080, 1920⟩ [] (by decide)).2.1 (by decide)
  · exact (claim2_aspect_classification_float64 ⟨4, 3⟩ [] (by decide)).2.2.1
      (by decide) (by decide)
  · exact (claim2_aspect_classification_float64 ⟨113, 200⟩ [] (by decide)).2.1 (by decide)
  · exact (claim2_aspect_classification_float64 ⟨1920, 1080⟩ [] (by decide)).2.2.2.2.2.1
      ⟨640, 0⟩ [] rfl

/-- C5: whenever `os.CreateTemp` succeeds (the environment carries a
staged temp-file name), that staged file is no longer on scratch
storage when the handler returns, on every exit path — success and
every downstream failure — in both video-upload variants.  The deferred
`os.Remove` registered right after creation runs on each such path. -/
theorem claim5_temp_file_removed_all_paths (cfg : ApiConfig) (venv : VideoUploadEnv)
    (lenv : LegacyEnv) (t u : String)
    (hv : venv.tempName = some t) (hl : lenv.tempName = some u) :
    t ∉ (handlerUploadVideo cfg venv).scratchFiles ∧
    u ∉ (legacyHandlerUploadVideo cfg lenv).scratchFiles := by
  constructor
  · unfold handlerUploadVideo
    repeat' split
    all_goals try simp_all [List.mem_filter]
    all_goals repeat' split
    all_goals simp_all [List.mem_filter]
  · unfold legacyHandlerUploadVideo legacyAfterTemp
    repeat' split
    all_goals try simp_all [List.mem_filter]
    all_goals repeat' split
    all_goals simp_all [List.mem_filter]

/-- Witness for C5: concrete runs of both variants, one fully
successful and one failing at `UpdateVideo`, leave no staged temp file
behind. -/
theorem claim5_temp_file_removed_all_paths_witness :
    "/tmp/abc123.mp4" ∉ (handlerUploadVideo cfg0 env0).scratchFiles ∧
    "/tmp/legacy.mp4" ∉ (legacyHandlerUploadVideo cfg0
      { lenv0 with tempName := some "/tmp/legacy.mp4", updateVideoOk := false }).scratchFiles :=
  claim5_temp_file_removed_all_paths cfg0 env0
    { lenv0 with tempName := some "/tmp/legacy.mp4", updateVideoOk := false }
    "/tmp/abc123.mp4" "/tmp/legacy.mp4" rfl rfl

/-- Counterexample to C6: the thumbnail handler does not enforce a
10 MiB body bound.  A thumbnail request whose body exceeds the
handler's `maxMemory` constant by one byte is processed to completion:
status 200, asset file written, record updated.  (`ParseMultipartForm`'s
argument is only the in-memory parsing threshold.) -/
theorem claim6_counterexample_oversized_thumbnail_succeeds :
    tenv0.bodySize > thumbnailMaxMemory ∧
    (handlerUploadThumbnail cfg0 tenv0).status = 200 ∧
    (handlerUploadThumbnail cfg0 tenv0).updateArg ≠ none ∧
    (handlerUploadThumbnail cfg0 tenv0).assetFiles ≠ [] := by
  decide

/-- C6 as amended: only the video endpoint (both variants) enforces a
hard 1 GiB request-body bound before any bytes are read — every
oversized video body is rejected with a 4xx before any scratch-storage
write, object-store write or record-store update — while the thumbnail
endpoint enforces no body-size bound at all: its 10 MiB constant is
only the in-memory threshold passed to `ParseMultipartForm`, and the
thumbnail handler's behaviour is entirely independent of the body
size. -/
theorem claim6_amended_body_size_limits (cfg : ApiConfig) (venv : VideoUploadEnv)
    (lenv : LegacyEnv) (tenv : ThumbnailEnv) (n : Nat)
    (hv : venv.bodySize > videoMaxMemory) (hl : lenv.bodySize > videoMaxMemory) :
    (handlerUploadVideo cfg venv).cleanReject ∧
    (legacyHandlerUploadVideo cfg lenv).cleanReject ∧
    handlerUploadThumbnail cfg { tenv with bodySize := n } = handlerUploadThumbnail cfg tenv := by
  refine ⟨?_, ?_, rfl⟩
  · unfold handlerUploadVideo
    repeat' split
    all_goals decide
  · unfold legacyHandlerUploadVideo legacyAfterTemp
    repeat' split
    all_goals decide

/-- Witness for C6 as amended: a video body one byte over 1 GiB is
cleanly rejected by both variants, and doubling a thumbnail body
changes nothing. -/
theorem claim6_amended_body_size_limits_witness :
    (handlerUploadVideo cfg0 { env0 with bodySize := videoMaxMemory + 1 }).cleanReject ∧
    (legacyHandlerUploadVideo cfg0
      { lenv0 with bodySize := videoMaxMemory + 1 }).cleanReject ∧
    handlerUploadThumbnail cfg0 { tenv0 with bodySize := 2 * thumbnailMaxMemory }
      = handlerUploadThumbnail cfg0 tenv0 :=
  claim6_amended_body_size_limits cfg0 { env0 with bodySize := videoMaxMemory + 1 }
    { lenv0 with bodySize := videoMaxMemory + 1 } tenv0 (2 * thumbnailMaxMemory)
    (by decide) (by decide)

/-- The video-upload request passed every client-side guard: valid id,
bearer token present, JWT valid, record found and owned by the caller,
body within the `MaxBytesReader` limit, multipart file present, and
declared media type exactly `video/mp4`. -/
abbrev videoClientGuardsPassed (env : VideoUploadEnv) : Prop :=
  env.videoIDValid = true ∧
  (∃ tok, env.bearerToken = some tok) ∧
  (∃ uid vid, env.jwtUserID = some uid ∧ env.dbVideo = some vid ∧ vid.userID = uid) ∧
  env.bodySize ≤ videoMaxMemory ∧
  (∃ fp, env.formFile = some fp ∧ fp.mediaType = "video/mp4")

/-- The thumbnail-upload request passed every client-side guard: valid
id, bearer token present, JWT valid, multipart file present, record
found and owned by the caller, and declared media type `image/jpeg` or
`image/png`. -/
abbrev thumbnailClientGuardsPassed (env : ThumbnailEnv) : Prop :=
  env.videoIDValid = true ∧
  (∃ tok, env.bearerToken = some tok) ∧
  (∃ uid vid, env.jwtUserID = some uid ∧ env.dbVideo = some vid ∧ vid.userID = uid) ∧
  (∃ fp, env.formFile = some fp ∧
    (fp.mediaType = "image/jpeg" ∨ fp.mediaType = "image/png"))

/-- Every run of `handlerUploadVideo` either rejects cleanly (4xx, no
side effects) or had passed every client-side guard. -/
lemma handlerUploadVideo_reject_or_guards (cfg : ApiConfig) (env : VideoUploadEnv) :
    (handlerUploadVideo cfg env).cleanReject ∨ videoClientGuardsPassed env := by
  cases hid : env.videoIDValid with
  | false =>
    left
    have h : handlerUploadVideo cfg env = ⟨400, false, [], none, none⟩ := by
      simp [handlerUploadVideo, hid]
    rw [h]
    decide
  | true =>
    cases htok : env.bearerToken with
    | none =>
      left
      have h : handlerUploadVideo cfg env = ⟨401, false, [], none, none⟩ := by
        simp [handlerUploadVideo, hid, htok]
      rw [h]
      decide
    | some tok =>
      cases hjwt : env.jwtUserID with
      | none =>
        left
        have h : handlerUploadVideo cfg env = ⟨401, false, [], none, none⟩ := by
          simp [handlerUploadVideo, hid, htok, hjwt]
        rw [h]
        decide
      | some uid =>
        cases hdb : env.dbVideo with
        | none =>
          left
          have h : handlerUploadVideo cfg env = ⟨404, false, [], none, none⟩ := by
            simp [handlerUploadVideo, hid, htok, hjwt, hdb]
          rw [h]
          decide
        | some vid =>
          by_cases howner : vid.userID = uid
          · by_cases hsize : env.bodySize > videoMaxMemory
            · left
              have h : handlerUploadVideo cfg env = ⟨400, false, [], none, none⟩ := by
                simp [handlerUploadVideo, hid, htok, hjwt, hdb, howner, hsize]
              rw [h]
              decide
            · cases hff : env.formFile with
              | none =>
                left
                have h : handlerUploadVideo cfg env = ⟨400, false, [], none, none⟩ := by
                  simp [handlerUploadVideo, hid, htok, hjwt, hdb, howner, hsize, hff]
                rw [h]
                decide
              | some fp =>
                by_cases hmt : fp.mediaType = "video/mp4"
                · right
                  exact ⟨hid, ⟨tok, htok⟩, ⟨uid, vid, hjwt, hdb, howner⟩,
                    Nat.le_of_not_lt hsize, ⟨fp, hff, hmt⟩⟩
                · left
                  have h : handlerUploadVideo cfg env = ⟨415, false, [], none, none⟩ := by
                    simp [handlerUploadVideo, hid, htok, hjwt, hdb, howner, hsize, hff, hmt]
                  rw [h]
                  decide
          · left
            have h : handlerUploadVideo cfg env = ⟨401, false, [], none, none⟩ := by
              simp [handlerUploadVideo, hid, htok, hjwt, hdb, howner]
            rw [h]
            decide

/-- Every run of `handlerUploadThumbnail` either rejects cleanly (4xx,
no side effects) or had passed every client-side guard. -/
lemma handlerUploadThumbnail_reject_or_guards (cfg : ApiConfig) (env : ThumbnailEnv) :
    (handlerUploadThumbnail cfg env).cleanReject ∨ thumbnailClientGuardsPassed env := by
  cases hid : env.videoIDValid with
  | false =>
    left
    have h : handlerUploadThumbnail cfg env = ⟨400, false, [], none⟩ := by
      simp [handlerUploadThumbnail, hid]
    rw [h]
    decide
  | true =>
    cases htok : env.bearerToken with
    | none =>
      left
      have h : handlerUploadThumbnail cfg env = ⟨401, false, [], none⟩ := by
        simp [handlerUploadThumbnail, hid, htok]
      rw [h]
      decide
    | some tok =>
      cases hjwt : env.jwtUserID with
      | none =>
        left
        have h : handlerUploadThumbnail cfg env = ⟨401, false, [], none⟩ := by
          simp [handlerUploadThumbnail, hid, htok, hjwt]
        rw [h]
        decide
      | some uid =>
        cases hff : env.formFile with
        | none =>
          left
          have h : handlerUploadThumbnail cfg env = ⟨400, false, [], none⟩ := by
            simp [handlerUploadThumbnail, hid, htok, hjwt, hff]
          rw [h]
          decide
        | some fp =>
          cases hdb : env.dbVideo with
          | none =>
            left
            have h : handlerUploadThumbnail cfg env = ⟨404, false, [], none⟩ := by
              simp [handlerUploadThumbnail, hid, htok, hjwt, hff, hdb]
            rw [h]
            decide
          | some vid =>
            by_cases howner : vid.userID = uid
            · by_cases hj : fp.mediaType = "image/jpeg"
              · right
                exact ⟨hid, ⟨tok, htok⟩, ⟨uid, vid, hjwt, hdb, howner⟩,
                  ⟨fp, hff, Or.inl hj⟩⟩
              · by_cases hp : fp.mediaType = "image/png"
                · right
                  exact ⟨hid, ⟨tok, htok⟩, ⟨uid, vid, hjwt, hdb, howner⟩,
                    ⟨fp, hff, Or.inr hp⟩⟩
                · left
                  have h : handlerUploadThumbnail cfg env = ⟨415, false, [], none⟩ := by
                    simp [handlerUploadThumbnail, hid, htok, hjwt, hff, hdb, howner, hj, hp]
                  rw [h]
                  decide
            · left
              have h : handlerUploadThumbnail cfg env = ⟨401, false, [], none⟩ := by
                simp [handlerUploadThumbnail, hid, htok, hjwt, hff, hdb, howner]
              rw [h]
              decide

/-- C7: every client-error exit — invalid video id, missing or invalid
token, caller who is not the record owner, declared content type
outside the allow-list (`video/mp4` for video; `image/jpeg` or
`image/png` for thumbnails), or malformed multipart (no form file) —
returns a 4xx response and performs no scratch-storage write, no
object-store write and no record-store update.  In particular a
disallowed content type is rejected before scratch or object storage is
touched and the record is unmodified. -/
theorem claim7_client_errors_no_side_effects (cfg : ApiConfig) (venv : VideoUploadEnv)
    (tenv : ThumbnailEnv)
    (hv : venv.videoIDValid = false ∨ venv.bearerToken = none ∨ venv.jwtUserID = none ∨
      (∃ uid vid, venv.jwtUserID = some uid ∧ venv.dbVideo = some vid ∧ vid.userID ≠ uid) ∨
      venv.formFile = none ∨
      (∃ fp, venv.formFile = some fp ∧ fp.mediaType ≠ "video/mp4"))
    (ht : tenv.videoIDValid = false ∨ tenv.bearerToken = none ∨ tenv.jwtUserID = none ∨
      (∃ uid vid, tenv.jwtUserID = some uid ∧ tenv.dbVideo = some vid ∧ vid.userID ≠ uid) ∨
      tenv.formFile = none ∨
      (∃ fp, tenv.formFile = some fp ∧ fp.mediaType ≠ "image/jpeg"
        ∧ fp.mediaType ≠ "image/png")) :
    (handlerUploadVideo cfg venv).cleanReject ∧
    (handlerUploadThumbnail cfg tenv).cleanReject := by
  constructor
  · rcases handlerUploadVideo_reject_or_guards cfg venv with hc | hg
    · exact hc
    · exfalso
      obtain ⟨g1, ⟨tok, g2⟩, ⟨uid1, vid1, g3, g4, g5⟩, g6, ⟨fp1, g7, g8⟩⟩ := hg
      rcases hv with h | h | h | ⟨uid, vid, h1, h2, h3⟩ | h | ⟨fp, h1, h2⟩ <;> simp_all
  · rcases handlerUploadThumbnail_reject_or_guards cfg tenv with hc | hg
    · exact hc
    · exfalso
      obtain ⟨g1, ⟨tok, g2⟩, ⟨uid1, vid1, g3, g4, g5⟩, ⟨fp1, g7, g8⟩⟩ := hg
      rcases ht with h | h | h | ⟨uid, vid, h1, h2, h3⟩ | h | ⟨fp, h1, h2, h3⟩ <;> simp_all

/-- Witness for C7: a video upload declaring `video/quicktime` and a
thumbnail request with an invalid video id are both rejected cleanly. -/
theorem claim7_client_errors_no_side_effects_witness :
    (handlerUploadVideo cfg0 { env0 with formFile := some ⟨"video/quicktime"⟩ }).cleanReject ∧
    (handlerUploadThumbnail cfg0 { tenv0 with videoIDValid := false }).cleanReject :=
  claim7_client_errors_no_side_effects cfg0
    { env0 with formFile := some ⟨"video/quicktime"⟩ }
    { tenv0 with videoIDValid := false }
    (Or.inr (Or.inr (Or.inr (Or.inr (Or.inr ⟨⟨"video/quicktime"⟩, rfl, by decide⟩)))))
    (Or.inl rfl)

/-- C8: for every video upload that reaches the media pipeline, the
published object key is `classification ++ "/" ++ processedFilename`,
where the classification comes from probing the *original* staged file
`tmp` (not the remuxed output) and the processed filename is the final
slash-separated segment of the fast-start output path — the staged path
plus the fixed `".processing"` suffix; the object is tagged with the
already-validated `video/mp4` type.  A non-zero ffmpeg exit fails the
request (400) with no object published and no fallback, and so does a
probe failure; both tools must succeed before publishing. -/
theorem claim8_object_key_and_tool_failures (cfg : ApiConfig) (env : VideoUploadEnv)
    (tok uid : String) (vid : Video) (fp : FormPart) (tmp : String)
    (h1 : env.videoIDValid = true) (h2 : env.bearerToken = some tok)
    (h3 : env.jwtUserID = some uid) (h4 : env.dbVideo = some vid)
    (h5 : vid.userID = uid) (h6 : ¬ env.bodySize > videoMaxMemory)
    (h7 : env.formFile = some fp) (h8 : fp.mediaType = "video/mp4")
    (h9 : env.randOk = true) (h10 : env.tempName = some tmp)
    (h11 : env.copyOk = true) :
    (env.ffmpegOk = false →
      (handlerUploadVideo cfg env).status = 400 ∧
      (handlerUploadVideo cfg env).putObject = none) ∧
    (env.ffmpegOk = true → env.openProcessedOk = true →
      ∀ a, getAspectRatio (env.probe tmp) = Except.ok a →
        (handlerUploadVideo cfg env).putObject
          = some (cfg.s3Bucket,
              a ++ "/" ++ (stringSplit (tmp ++ ".processing") '/').getLastD "",
              "video/mp4")) ∧
    (env.ffmpegOk = true → env.openProcessedOk = true →
      ∀ e, getAspectRatio (env.probe tmp) = Except.error e →
        (handlerUploadVideo cfg env).status = 400 ∧
        (handlerUploadVideo cfg env).putObject = none) := by
  refine ⟨?_, ?_, ?_⟩
  · intro hff
    simp [handlerUploadVideo, h1, h2, h3, h4, h5, h6, h7, h8, h9, h10,
      uploadVideoAfterStage, h11, hff, processVideoForFastStart]
  · intro hff hop a ha
    simp [handlerUploadVideo, h1, h2, h3, h4, h5, h6, h7, h8, h9, h10,
      uploadVideoAfterStage, h11, hff, hop, processVideoForFastStart, ha]
    split
    · simp
    · split <;> simp
  · intro hff hop e he
    simp [handlerUploadVideo, h1, h2, h3, h4, h5, h6, h7, h8, h9, h10,
      uploadVideoAfterStage, h11, hff, hop, processVideoForFastStart, he]

/-- Witness for C8: in the concrete successful run `env0` (16:9 probe of
the staged file, staged path `/tmp/abc123.mp4`), the object is published
under `landscape/abc123.mp4.processing`. -/
theorem claim8_object_key_and_tool_failures_witness :
    (handlerUploadVideo cfg0 env0).putObject
      = some ("tubely-bucket", "landscape/abc123.mp4.processing", "video/mp4") := by
  have h := (claim8_object_key_and_tool_failures cfg0 env0 "tok" "user1"
      ⟨"user1", none, none⟩ ⟨"video/mp4"⟩ "/tmp/abc123.mp4"
      rfl rfl rfl rfl rfl (by decide) rfl rfl rfl rfl rfl).2.1
      rfl rfl "landscape" probe_env0_landscape
  rw [h]
  decide

/-- C9: the fast-start output file — the staged path plus the
`".processing"` suffix — is never removed on any exit path of
`handlerUploadVideo` that runs after the transcode step: whatever the
downstream oracles do (open failure, probe result, presign result,
record-update result), the file is still on scratch storage when the
handler returns; only the original staged temp file has a deferred
removal. -/
theorem claim9_processed_file_never_removed (cfg : ApiConfig) (env : VideoUploadEnv)
    (tok uid : String) (vid : Video) (fp : FormPart) (tmp : String)
    (h1 : env.videoIDValid = true) (h2 : env.bearerToken = some tok)
    (h3 : env.jwtUserID = some uid) (h4 : env.dbVideo = some vid)
    (h5 : vid.userID = uid) (h6 : ¬ env.bodySize > videoMaxMemory)
    (h7 : env.formFile = some fp) (h8 : fp.mediaType = "video/mp4")
    (h9 : env.randOk = true) (h10 : env.tempName = some tmp)
    (h11 : env.copyOk = true) (hff : env.ffmpegOk = true) :
    (tmp ++ ".processing") ∈ (handlerUploadVideo cfg env).scratchFiles := by
  simp [handlerUploadVideo, h1, h2, h3, h4, h5, h6, h7, h8, h9, h10,
    uploadVideoAfterStage, h11, hff, processVideoForFastStart]
  repeat' split
  all_goals simp [List.mem_filter, append_processing_ne]

/-- Witness for C9: the concrete successful run `env0` leaves
`/tmp/abc123.mp4.processing` on scratch storage. -/
theorem claim9_processed_file_never_removed_witness :
    ("/tmp/abc123.mp4" ++ ".processing") ∈ (handlerUploadVideo cfg0 env0).scratchFiles :=
  claim9_processed_file_never_removed cfg0 env0 "tok" "user1"
    ⟨"user1", none, none⟩ ⟨"video/mp4"⟩ "/tmp/abc123.mp4"
    rfl rfl rfl rfl rfl (by decide) rfl rfl rfl rfl rfl rfl

/-- Counterexample to C10: the claim asserts that after a failed
`os.CreateTemp` the deferred `os.Remove`/`Close` and the subsequent
`io.Copy` operate on the invalid temp-file handle instead of aborting
the pipeline.  In fact Go evaluates a defer statement's arguments
eagerly: `tempFile.Name()` dereferences the nil handle and panics right
there, so at the concrete failing run `lenv0` no deferred clean-up is
registered, `io.Copy` never runs, and neither `PutObject` nor
`UpdateVideo` is reached — the pipeline does abort, by runtime panic. -/
theorem claim10_counterexample_create_temp_failure_panics :
    (legacyHandlerUploadVideo cfg0 lenv0).statusWrites = [400] ∧
    (legacyHandlerUploadVideo cfg0 lenv0).panicked = true ∧
    (legacyHandlerUploadVideo cfg0 lenv0).ioCopyHandle = none ∧
    (legacyHandlerUploadVideo cfg0 lenv0).deferredCleanupHandle = none ∧
    (legacyHandlerUploadVideo cfg0 lenv0).putObject = none ∧
    (legacyHandlerUploadVideo cfg0 lenv0).updateArg = none := by
  decide

/-- C10 as amended: in the legacy video-upload variant, when
`os.CreateTemp` fails the handler writes the 400 error response but
does not return: execution continues past the error branch into the
first deferred-clean-up statement, whose argument `tempFile.Name()` is
evaluated eagerly on the invalid nil handle — so the request aborts by
runtime panic at that statement, and `io.Copy`, the object-store
publish and the record update are never reached, instead of the
pipeline aborting by a clean error return. -/
theorem claim10_legacy_create_temp_error_then_panic (cfg : ApiConfig) (env : LegacyEnv)
    (tok uid : String) (vid : Video) (fp : FormPart)
    (h1 : env.videoIDValid = true) (h2 : env.bearerToken = some tok)
    (h3 : env.jwtUserID = some uid) (h4 : env.dbVideo = some vid)
    (h5 : vid.userID = uid) (h6 : ¬ env.bodySize > videoMaxMemory)
    (h7 : env.formFile = some fp) (h8 : fp.mediaType = "video/mp4")
    (h9 : env.randOk = true) (h10 : env.tempName = none) :
    (legacyHandlerUploadVideo cfg env).statusWrites = [400] ∧
    (legacyHandlerUploadVideo cfg env).panicked = true ∧
    (legacyHandlerUploadVideo cfg env).ioCopyHandle = none ∧
    (legacyHandlerUploadVideo cfg env).deferredCleanupHandle = none ∧
    (legacyHandlerUploadVideo cfg env).putObject = none ∧
    (legacyHandlerUploadVideo cfg env).updateArg = none := by
  simp [legacyHandlerUploadVideo, h1, h2, h3, h4, h5, h6, h7, h8, h9, h10]

/-- Witness for C10 as amended: the concrete legacy run `lenv0` (valid
request, `os.CreateTemp` fails) writes the 400 error and then dies by
panic with nothing else executed. -/
theorem claim10_legacy_create_temp_error_then_panic_witness :
    (legacyHandlerUploadVideo cfg0 lenv0).statusWrites = [400] ∧
    (legacyHandlerUploadVideo cfg0 lenv0).panicked = true ∧
    (legacyHandlerUploadVideo cfg0 lenv0).ioCopyHandle = none ∧
    (legacyHandlerUploadVideo cfg0 lenv0).deferredCleanupHandle = none ∧
    (legacyHandlerUploadVideo cfg0 lenv0).putObject = none ∧
    (legacyHandlerUploadVideo cfg0 lenv0).updateArg = none :=
  claim10_legacy_create_temp_error_then_panic cfg0 lenv0 "tok" "user1"
    ⟨"user1", none, none⟩ ⟨"video/mp4"⟩ rfl rfl rfl rfl rfl (by decide) rfl rfl rfl rfl

end Tubely
